import Mathlib

/-!
Verification of the nevr-agent real-time frame transport and distribution
subsystem, shallowly embedded from the Go source.

Collector side (StreamHub in internal/api): a per-match ring buffer of
recent frames with a frame-index-to-slot map, per-subscriber fan-out with
pause/play/framerate control and seek-by-frame-index.

Producer side (WebSocketWriter in internal/agent): a resilient link with a
bounded in-memory outbound queue, a disk spill file used after a threshold
of continuous disconnection, exponential-backoff reconnection, and a
post-reconnect drain of the spill file.
-/

namespace Nevr

/-- A telemetry frame: monotonic frame index plus an opaque payload
(standing in for the remaining LobbySessionStateFrame fields). -/
structure Frame where
  frameIndex : Nat
  payload : Nat
deriving DecidableEq, Repr

/-! ### Association-list model of the Go map used for frameIndex -/

/-- Remove every binding of key k (Go: delete(m, k)). -/
def mapErase (k : Nat) : List (Nat × Nat) → List (Nat × Nat)
  | [] => []
  | (a, b) :: m => if a = k then mapErase k m else (a, b) :: mapErase k m

/-- Set key k to v (Go: m[k] = v overwrites any existing binding). -/
def mapInsert (k v : Nat) (m : List (Nat × Nat)) : List (Nat × Nat) :=
  (k, v) :: mapErase k m

/-- Look up key k (Go: m[k] with the ok flag). -/
def mapLookup (k : Nat) : List (Nat × Nat) → Option Nat
  | [] => none
  | (a, b) :: m => if a = k then some b else mapLookup k m

/-! ### Match stream (collector-side ring buffer + index map) -/

/-- State of one match stream: the frames slice used as a ring buffer for
seeking and the frame-index-to-buffer-position map, as in matchStream. -/
structure MatchStream where
  frames : List Frame
  frameIndex : List (Nat × Nat)
  maxFrames : Nat
deriving DecidableEq, Repr

/-- A fresh match stream as created by subscribe / BroadcastFrame:
empty buffer, empty index, capacity 10000. -/
def newMatchStream : MatchStream :=
  { frames := [], frameIndex := [], maxFrames := 10000 }

/-- A fresh match stream with an explicit capacity (the Go code always
uses 10000; claims also quantify over the capacity). -/
def streamK (k : Nat) : MatchStream :=
  { frames := [], frameIndex := [], maxFrames := k }

/-- The frame-storage step of StreamHub.BroadcastFrame: if the buffer is
at capacity, delete the oldest frame's index entry and drop the oldest
frame; then append the new frame and record its buffer position.
(The Go code does not adjust the remaining map entries after the shift.) -/
def broadcastStore (s : MatchStream) (f : Frame) : MatchStream :=
  if s.frames.length ≥ s.maxFrames then
    match s.frames with
    | [] =>
      { s with frames := [f], frameIndex := mapInsert f.frameIndex 0 s.frameIndex }
    | oldFrame :: rest =>
      { s with
        frames := rest ++ [f],
        frameIndex := mapInsert f.frameIndex rest.length (mapErase oldFrame.frameIndex s.frameIndex) }
  else
    { s with
      frames := s.frames ++ [f],
      frameIndex := mapInsert f.frameIndex s.frames.length s.frameIndex }

/-- Broadcasting a sequence of frames into a stream, in order. -/
def runBroadcasts (s : MatchStream) (fs : List Frame) : MatchStream :=
  fs.foldl broadcastStore s

/-- The lookup part of streamSubscriber.handleSeek: only a strictly
positive requested frame index is looked up in the index map; the found
position is read back from the frames slice. Time-based seek is a no-op. -/
def seekLookup (s : MatchStream) (frameReq : Nat) : Option Frame :=
  if frameReq > 0 then
    match mapLookup frameReq s.frameIndex with
    | some pos => s.frames.get? pos
    | none => none
  else
    none

/-! ### Subscriber sessions -/

/-- Messages placed on a subscriber's send channel (StreamMessage types
actually produced by the code). -/
inductive StreamMsg where
  | frame (f : Frame)
  | matchEnded
  | streamEnded
deriving DecidableEq, Repr

/-- Capacity of a subscriber's send channel (make(chan []byte, 256)). -/
def sendCap : Nat := 256

/-- A subscriber session: pacing rate, paused flag and the bounded send
channel, as in streamSubscriber. -/
structure Subscriber where
  frameRate : Int
  paused : Bool
  sendQueue : List StreamMsg
deriving DecidableEq, Repr

/-- Non-blocking push into the subscriber's send channel: enqueue if there
is room, otherwise silently drop (select with default). -/
def pushToSub (m : StreamMsg) (sub : Subscriber) : Subscriber :=
  if sub.sendQueue.length < sendCap then
    { sub with sendQueue := sub.sendQueue ++ [m] }
  else
    sub

/-- The fan-out part of BroadcastFrame for one subscriber: skipped
entirely while paused, otherwise a non-blocking push of the frame. -/
def broadcastToSub (f : Frame) (sub : Subscriber) : Subscriber :=
  if sub.paused then sub else pushToSub (StreamMsg.frame f) sub

/-- The delivery part of handleSeek: if the lookup found a frame it is
pushed (non-blocking) onto the send channel, with no paused check. -/
def seekDeliver (s : MatchStream) (frameReq : Nat) (sub : Subscriber) : Subscriber :=
  match seekLookup s frameReq with
  | some f => pushToSub (StreamMsg.frame f) sub
  | none => sub

/-- Control commands accepted by streamSubscriber.handleControl. -/
inductive ControlCmd where
  | play
  | pause
  | framerate (r : Int)
deriving DecidableEq, Repr

/-- streamSubscriber.handleControl: pause and play toggle the paused flag;
framerate applies the requested rate only when 0 < r and r is at most the
hub-wide maximum, and otherwise leaves the session rate unchanged. -/
def handleControl (maxFrameRate : Int) (c : ControlCmd) (sub : Subscriber) : Subscriber :=
  match c with
  | .pause => { sub with paused := true }
  | .play => { sub with paused := false }
  | .framerate r =>
    if 0 < r ∧ r ≤ maxFrameRate then { sub with frameRate := r } else sub

/-- The initial frame rate computed by handleStreamConnection from the fps
query parameter: default 30; a parsed positive value is used but clamped
down to the hub maximum. none stands for an absent or unparsable value. -/
def initialFrameRate (maxFrameRate : Int) (fpsParam : Option Int) : Int :=
  match fpsParam with
  | some fps =>
    if fps > 0 then (if fps > maxFrameRate then maxFrameRate else fps) else 30
  | none => 30

/-- A match stream together with its registered subscriber sessions. -/
structure StreamState where
  stream : MatchStream
  subscribers : List Subscriber
deriving DecidableEq, Repr

/-- StreamHub.subscribe: registers the session on the (existing or fresh)
match stream and logs; nothing is written to the subscriber's channel. -/
def subscribe (st : StreamState) (sub : Subscriber) : StreamState :=
  { st with subscribers := st.subscribers ++ [sub] }

/-! ### Producer-side WebSocketWriter (internal/agent/writer_websocket.go)

Operational model of the writer as a labelled transition system. Each
event is one atomic action of one of the concurrent tasks (producer call,
write-loop iteration, read-loop failure, reconnect-loop attempt, disk
drain iteration) or the passage of time; a trace is any interleaving. -/

/-- Max frames kept in the in-memory outbound channel. -/
def memoryBufferSize : Nat := 1000

/-- Continuous-disconnection duration (ms) after which frames are spilled
to the disk buffer. -/
def diskBufferThreshold : Nat := 3000

/-- Initial reconnect backoff delay (ms). -/
def initialReconnectDelay : Nat := 1000

/-- Maximum reconnect backoff delay (ms). -/
def maxReconnectDelay : Nat := 30000

/-- Backoff multiplier. -/
def reconnectBackoffMult : Nat := 2

/-- Shared state of a WebSocketWriter plus the collector-visible trace:
delivered lists the frames the collector has received, in order. -/
structure WriterState where
  time : Nat
  outgoing : List Frame
  stopped : Bool
  connected : Bool
  disconnectedAt : Option Nat
  writeAlive : Bool
  readAlive : Bool
  disk : List Frame
  usingDisk : Bool
  drainRemaining : Option (List Frame)
  delivered : List Frame
  delay : Nat
deriving DecidableEq, Repr

/-- Writer state right after a successful Connect. -/
def initWriter : WriterState :=
  { time := 0, outgoing := [], stopped := false, connected := true,
    disconnectedAt := none, writeAlive := true, readAlive := true,
    disk := [], usingDisk := false, drainRemaining := none,
    delivered := [], delay := initialReconnectDelay }

/-- One atomic action of the writer system. -/
inductive WriterEv where
  | writeFrame (f : Frame)
  | deqOk
  | deqFail
  | deqDisc
  | pingFail
  | readFail
  | reconnFail
  | reconnOk
  | drainSend
  | drainFail
  | drainAbort
  | drainDone
  | tick (dt : Nat)
deriving DecidableEq, Repr

/-- Whether the write loop would spill to disk: the disconnect timestamp
is set (Go: not the zero time) and more than the threshold has elapsed. -/
def pastThreshold (s : WriterState) : Bool :=
  match s.disconnectedAt with
  | some t => decide (diskBufferThreshold < s.time - t)
  | none => false

/-- Transition function. Events whose task is not runnable in the current
state (dead goroutine, empty channel, wrong connection state) are no-ops.

writeFrame: WriteFrame, a non-blocking enqueue that drops when full.
deqOk / deqFail: a write-loop iteration pulling the head frame while
connected, with the write succeeding / failing (on failure the frame is
lost, the disconnect timestamp is recorded and the loop goroutine
returns). deqDisc: a write-loop iteration while disconnected - past the
threshold the frame is appended to the disk buffer, otherwise it is
re-enqueued at the back of the channel (dropped if meanwhile full).
pingFail: keep-alive failure in the write loop (records the timestamp,
loop returns). readFail: read-loop failure (clears connected but does not
record a disconnect timestamp; loop returns). reconnFail / reconnOk: a
reconnect-loop attempt, with exponential backoff capped at the maximum on
failure, and on success the delay reset, fresh read and write loops, and
a drain task started over the disk buffer contents. drainSend /
drainFail / drainAbort / drainDone: one drain iteration sending the next
spill-file line / failing to send it (records the timestamp, aborts but
keeps the file) / aborting because the connection was lost / finishing
and deleting the spill file. tick: time passing. -/
def wstep (e : WriterEv) (s : WriterState) : WriterState :=
  match e with
  | .writeFrame f =>
    if s.stopped then s
    else if s.outgoing.length < memoryBufferSize then
      { s with outgoing := s.outgoing ++ [f] }
    else s
  | .deqOk =>
    match s.outgoing with
    | f :: rest =>
      if s.writeAlive && s.connected then
        { s with outgoing := rest, delivered := s.delivered ++ [f] }
      else s
    | [] => s
  | .deqFail =>
    match s.outgoing with
    | _ :: rest =>
      if s.writeAlive && s.connected then
        { s with outgoing := rest, connected := false,
                 disconnectedAt := some s.time, writeAlive := false }
      else s
    | [] => s
  | .deqDisc =>
    match s.outgoing with
    | f :: rest =>
      if s.writeAlive && !s.connected then
        if pastThreshold s then
          { s with outgoing := rest, disk := s.disk ++ [f], usingDisk := true }
        else if rest.length < memoryBufferSize then
          { s with outgoing := rest ++ [f] }
        else
          { s with outgoing := rest }
      else s
    | [] => s
  | .pingFail =>
    if s.writeAlive && s.connected then
      { s with connected := false, disconnectedAt := some s.time, writeAlive := false }
    else s
  | .readFail =>
    if s.readAlive && s.connected then
      { s with connected := false, readAlive := false }
    else s
  | .reconnFail =>
    if !s.connected && !s.stopped then
      { s with delay := min (s.delay * reconnectBackoffMult) maxReconnectDelay }
    else s
  | .reconnOk =>
    if !s.connected && !s.stopped then
      { s with connected := true, delay := initialReconnectDelay,
               writeAlive := true, readAlive := true,
               drainRemaining := if s.usingDisk then some s.disk else none }
    else s
  | .drainSend =>
    match s.drainRemaining with
    | some (f :: rest) =>
      if s.connected then
        { s with delivered := s.delivered ++ [f], drainRemaining := some rest }
      else s
    | _ => s
  | .drainFail =>
    match s.drainRemaining with
    | some (_ :: _) =>
      if s.connected then
        { s with connected := false, disconnectedAt := some s.time,
                 drainRemaining := none }
      else s
    | _ => s
  | .drainAbort =>
    match s.drainRemaining with
    | some _ => if !s.connected then { s with drainRemaining := none } else s
    | _ => s
  | .drainDone =>
    match s.drainRemaining with
    | some [] =>
      { s with drainRemaining := none, disk := [], usingDisk := false }
    | _ => s
  | .tick dt => { s with time := s.time + dt }

/-- Running a trace of writer events. -/
def runWriter (s : WriterState) (evs : List WriterEv) : WriterState :=
  evs.foldl (fun st e => wstep e st) s

/-! ### Lemmas about the index map -/

theorem mapLookup_erase (i j : Nat) (m : List (Nat × Nat)) :
    mapLookup i (mapErase j m) = if j = i then none else mapLookup i m := by
  induction m with
  | nil => simp [mapErase, mapLookup]
  | cons p m ih =>
    obtain ⟨a, b⟩ := p
    simp only [mapErase]
    by_cases haj : a = j
    · rw [if_pos haj, ih]
      by_cases hji : j = i
      · simp [hji]
      · rw [if_neg hji, if_neg hji, mapLookup, if_neg (by omega)]
    · rw [if_neg haj]
      simp only [mapLookup]
      by_cases hai : a = i
      · rw [if_pos hai, if_pos hai, if_neg (by omega)]
      · rw [if_neg hai, if_neg hai, ih]

theorem mapLookup_erase_self (i : Nat) (m : List (Nat × Nat)) :
    mapLookup i (mapErase i m) = none := by
  simp [mapLookup_erase]

theorem mapLookup_insert_ne (i j v : Nat) (m : List (Nat × Nat)) (h : j ≠ i) :
    mapLookup i (mapInsert j v m) = mapLookup i m := by
  simp only [mapInsert, mapLookup, if_neg h, mapLookup_erase, h, ite_false]

/-! ### Lemmas about broadcastStore and runBroadcasts -/

theorem broadcastStore_maxFrames (s : MatchStream) (f : Frame) :
    (broadcastStore s f).maxFrames = s.maxFrames := by
  unfold broadcastStore
  split
  · split <;> rfl
  · rfl

theorem runBroadcasts_maxFrames (fs : List Frame) (s : MatchStream) :
    (runBroadcasts s fs).maxFrames = s.maxFrames := by
  induction fs generalizing s with
  | nil => rfl
  | cons f fs ih =>
    show (runBroadcasts (broadcastStore s f) fs).maxFrames = s.maxFrames
    rw [ih, broadcastStore_maxFrames]

theorem broadcastStore_length (s : MatchStream) (f : Frame)
    (hk : 1 ≤ s.maxFrames) (hle : s.frames.length ≤ s.maxFrames) :
    (broadcastStore s f).frames.length = min s.maxFrames (s.frames.length + 1) := by
  unfold broadcastStore
  split
  · rename_i hfull
    split
    · rename_i heq
      rw [heq] at hfull
      simp at hfull
      omega
    · rename_i oldFrame rest heq
      have hlen : s.frames.length = rest.length + 1 := by rw [heq]; rfl
      simp only [List.length_append, List.length_cons, List.length_nil]
      omega
  · rename_i hfull
    simp only [List.length_append, List.length_cons, List.length_nil]
    omega

theorem runBroadcasts_length (fs : List Frame) (s : MatchStream)
    (hk : 1 ≤ s.maxFrames) (hle : s.frames.length ≤ s.maxFrames) :
    (runBroadcasts s fs).frames.length = min s.maxFrames (s.frames.length + fs.length) := by
  induction fs generalizing s with
  | nil => simp [runBroadcasts]; omega
  | cons f fs ih =>
    have h1 := broadcastStore_maxFrames s f
    have h2 := broadcastStore_length s f hk hle
    have h3 : (broadcastStore s f).frames.length ≤ (broadcastStore s f).maxFrames := by
      rw [h1, h2]; omega
    have h4 := ih (broadcastStore s f) (by rw [h1]; exact hk) h3
    show (runBroadcasts (broadcastStore s f) fs).frames.length = _
    rw [h4, h1, h2]
    simp only [List.length_cons]
    omega

theorem runBroadcasts_frames_fill (fs : List Frame) (s : MatchStream)
    (h : s.frames.length + fs.length ≤ s.maxFrames) :
    (runBroadcasts s fs).frames = s.frames ++ fs := by
  induction fs generalizing s with
  | nil => simp [runBroadcasts]
  | cons f fs ih =>
    have hlt : ¬ (s.frames.length ≥ s.maxFrames) := by
      simp only [List.length_cons] at h
      omega
    have hstep : broadcastStore s f =
        { s with frames := s.frames ++ [f],
                 frameIndex := mapInsert f.frameIndex s.frames.length s.frameIndex } := by
      unfold broadcastStore
      rw [if_neg hlt]
    show (runBroadcasts (broadcastStore s f) fs).frames = s.frames ++ f :: fs
    rw [hstep, ih]
    · simp
    · simp only [List.length_append, List.length_cons, List.length_nil] at h ⊢
      omega

theorem broadcastStore_absent (s : MatchStream) (f : Frame) (i : Nat)
    (h1 : mapLookup i s.frameIndex = none) (h2 : f.frameIndex ≠ i) :
    mapLookup i (broadcastStore s f).frameIndex = none := by
  unfold broadcastStore
  split
  · split
    · show mapLookup i (mapInsert f.frameIndex 0 s.frameIndex) = none
      rw [mapLookup_insert_ne _ _ _ _ h2]
      exact h1
    · rename_i oldFrame rest heq
      show mapLookup i
        (mapInsert f.frameIndex rest.length (mapErase oldFrame.frameIndex s.frameIndex)) = none
      rw [mapLookup_insert_ne _ _ _ _ h2, mapLookup_erase]
      split
      · rfl
      · exact h1
  · show mapLookup i (mapInsert f.frameIndex s.frames.length s.frameIndex) = none
    rw [mapLookup_insert_ne _ _ _ _ h2]
    exact h1

theorem runBroadcasts_absent (fs : List Frame) (s : MatchStream) (i : Nat)
    (h1 : mapLookup i s.frameIndex = none) (h2 : ∀ f ∈ fs, f.frameIndex ≠ i) :
    mapLookup i (runBroadcasts s fs).frameIndex = none := by
  induction fs generalizing s with
  | nil => exact h1
  | cons f fs ih =>
    exact ih (broadcastStore s f)
      (broadcastStore_absent s f i h1 (h2 f (by simp)))
      (fun g hg => h2 g (by simp [hg]))

theorem seekLookup_of_absent (s : MatchStream) (i : Nat)
    (h : mapLookup i s.frameIndex = none) :
    seekLookup s i = none := by
  unfold seekLookup
  split
  · rw [h]
  · rfl

theorem runBroadcasts_append (s : MatchStream) (l₁ l₂ : List Frame) :
    runBroadcasts s (l₁ ++ l₂) = runBroadcasts (runBroadcasts s l₁) l₂ := by
  simp [runBroadcasts, List.foldl_append]

theorem runBroadcasts_cons (s : MatchStream) (f : Frame) (fs : List Frame) :
    runBroadcasts s (f :: fs) = runBroadcasts (broadcastStore s f) fs := rfl

/-- Once more than capacity-many distinct-index frames have been
broadcast, the first frame's index entry has been deleted by eviction and
never reappears. -/
theorem runBroadcasts_oldest_evicted (k : Nat) (f₁ : Frame) (rest : List Frame)
    (hk : 1 ≤ k) (hlen : k < (f₁ :: rest).length)
    (hnd : ((f₁ :: rest).map Frame.frameIndex).Nodup) :
    mapLookup f₁.frameIndex (runBroadcasts (streamK k) (f₁ :: rest)).frameIndex = none := by
  have hr : k ≤ rest.length := by
    simp only [List.length_cons] at hlen
    omega
  have htake : (rest.take (k - 1)).length = k - 1 := by
    rw [List.length_take]
    omega
  have hdrop : (rest.drop (k - 1)).length = rest.length - (k - 1) := List.length_drop _ _
  have hdne : rest.drop (k - 1) ≠ [] := by
    intro h0
    rw [h0] at hdrop
    simp at hdrop
    omega
  obtain ⟨f₂, d', hd2⟩ := List.exists_cons_of_ne_nil hdne
  have hrest : rest = rest.take (k - 1) ++ (f₂ :: d') := by
    rw [← hd2, List.take_append_drop]
  have hnotmem : f₁.frameIndex ∉ rest.map Frame.frameIndex := by
    simp only [List.map_cons, List.nodup_cons] at hnd
    exact hnd.1
  have hall : ∀ g ∈ rest, g.frameIndex ≠ f₁.frameIndex := by
    intro g hg hgeq
    exact hnotmem (hgeq ▸ List.mem_map_of_mem Frame.frameIndex hg)
  have hmax : (runBroadcasts (streamK k) (f₁ :: rest.take (k - 1))).maxFrames = k := by
    rw [runBroadcasts_maxFrames]
    rfl
  have hfr : (runBroadcasts (streamK k) (f₁ :: rest.take (k - 1))).frames
      = f₁ :: rest.take (k - 1) := by
    have hfill := runBroadcasts_frames_fill (f₁ :: rest.take (k - 1)) (streamK k)
      (by simp only [streamK, List.length_cons, List.length_nil, htake]; omega)
    simpa [streamK] using hfill
  have hfull : (runBroadcasts (streamK k) (f₁ :: rest.take (k - 1))).frames.length ≥
      (runBroadcasts (streamK k) (f₁ :: rest.take (k - 1))).maxFrames := by
    rw [hfr, hmax]
    simp only [List.length_cons, htake]
    omega
  have hmem₂ : f₂ ∈ rest := by
    rw [hrest]
    exact List.mem_append_right _ (List.mem_cons_self _ _)
  have hne₂ : f₂.frameIndex ≠ f₁.frameIndex := hall f₂ hmem₂
  have habsent : mapLookup f₁.frameIndex
      (broadcastStore (runBroadcasts (streamK k) (f₁ :: rest.take (k - 1))) f₂).frameIndex
      = none := by
    unfold broadcastStore
    rw [if_pos hfull]
    split
    · rename_i heq
      rw [hfr] at heq
      cases heq
    · rename_i oldFrame rest₂ heq
      rw [hfr] at heq
      injection heq with ho hr2
      show mapLookup f₁.frameIndex
        (mapInsert f₂.frameIndex rest₂.length
          (mapErase oldFrame.frameIndex
            (runBroadcasts (streamK k) (f₁ :: rest.take (k - 1))).frameIndex)) = none
      rw [mapLookup_insert_ne _ _ _ _ hne₂, ← ho, mapLookup_erase_self]
  have hdecomp : f₁ :: rest = (f₁ :: rest.take (k - 1)) ++ (f₂ :: d') := by
    rw [List.cons_append, ← hrest]
  rw [hdecomp, runBroadcasts_append, runBroadcasts_cons]
  refine runBroadcasts_absent d' _ _ habsent ?_
  intro g hg
  refine hall g ?_
  rw [hrest]
  exact List.mem_append_right _ (List.mem_cons_of_mem _ hg)

/-! ### Writer backoff lemmas -/

theorem wstep_delay_bounds (e : WriterEv) (s : WriterState)
    (h1 : initialReconnectDelay ≤ s.delay) (h2 : s.delay ≤ maxReconnectDelay) :
    initialReconnectDelay ≤ (wstep e s).delay ∧ (wstep e s).delay ≤ maxReconnectDelay := by
  simp only [initialReconnectDelay, maxReconnectDelay] at h1 h2 ⊢
  cases e <;> unfold wstep <;> (repeat' split) <;>
    (simp_all [initialReconnectDelay, maxReconnectDelay, reconnectBackoffMult]; try omega)

theorem runWriter_delay_bounds (evs : List WriterEv) (s : WriterState)
    (h1 : initialReconnectDelay ≤ s.delay) (h2 : s.delay ≤ maxReconnectDelay) :
    initialReconnectDelay ≤ (runWriter s evs).delay
    ∧ (runWriter s evs).delay ≤ maxReconnectDelay := by
  induction evs generalizing s with
  | nil => exact ⟨h1, h2⟩
  | cons e evs ih =>
    have h := wstep_delay_bounds e s h1 h2
    exact ih (wstep e s) h.1 h.2

/-! ### Concrete scenarios used by the claims -/

/-- Frames with indices 1..n and payload equal to the index. -/
def indexedFrames (n : Nat) : List Frame :=
  (List.range n).map (fun i => { frameIndex := i + 1, payload := i + 1 })

/-- Ring of capacity 10 after broadcasting frame indices 1..15. -/
def stK10after15 : MatchStream := runBroadcasts (streamK 10) (indexedFrames 15)

/-- Ring of capacity 10 after broadcasting frame indices 1..11. -/
def stK10after11 : MatchStream := runBroadcasts (streamK 10) (indexedFrames 11)

/-- An unpaused subscriber at 30 fps with an empty send channel. -/
def freshSub : Subscriber := { frameRate := 30, paused := false, sendQueue := [] }

/-- A paused subscriber with an empty send channel. -/
def pausedSub : Subscriber := { frameRate := 30, paused := true, sendQueue := [] }

/-- Frames used in the writer traces. -/
def wFrame (n : Nat) : Frame := { frameIndex := n, payload := n }

/-- Writer trace for the ordering claim: the read loop detects the
disconnect, two frames are accepted while disconnected, one disconnected
write-loop iteration runs, the link reconnects and both frames are sent. -/
def orderingTrace : List WriterEv :=
  [.readFail, .writeFrame (wFrame 1), .writeFrame (wFrame 2), .deqDisc,
   .reconnOk, .deqOk, .deqOk]

/-- Writer trace for the spill claim: a write failure disconnects the
link (frame 100 is lost and the disconnect timestamp recorded), the link
reconnects, a read failure disconnects it again (timestamp left stale),
5 s pass, frame 101 is accepted and spilled to disk, the link reconnects
(starting the drain), frame 102 is accepted and sent by the restarted
write loop, and only then does the drain send the spilled frame 101. -/
def spillTrace : List WriterEv :=
  [.writeFrame (wFrame 100), .deqFail, .reconnOk, .readFail, .tick 5000,
   .writeFrame (wFrame 101), .deqDisc, .reconnOk, .writeFrame (wFrame 102),
   .deqOk, .drainSend]

/-- A writer state in which the link is down and the writer not stopped. -/
def discState : WriterState := { initWriter with connected := false }

/-! ### Claims -/

/-- Claim C1 (evaluation at the failing input): with ring capacity 10,
after broadcasting frame indices 1..15, index 12 is still present in the
index map (at slot 9), yet a seek for frame 12 delivers frame 15 - not
frame 12's payload - because eviction shifts the buffer without updating
the surviving map positions. Seek(3) does deliver nothing, as claimed. -/
theorem C1_seek_delivers_wrong_frame :
    mapLookup 12 stK10after15.frameIndex = some 9
  ∧ seekLookup stK10after15 12 = some { frameIndex := 15, payload := 15 }
  ∧ ({ frameIndex := 15, payload := 15 } : Frame) ≠ { frameIndex := 12, payload := 12 }
  ∧ seekLookup stK10after15 3 = none := by decide

/-- Claim C2 (evaluation at the failing input): with capacity 10, after
broadcasting frame indices 1..11 the map still sends index 10 to slot 9,
but slot 9 now holds frame 11 and frame 10 actually sits at slot 8: the
claimed buffer/map consistency invariant is not preserved by eviction. -/
theorem C2_frameIndex_inconsistent_after_eviction :
    mapLookup 10 stK10after11.frameIndex = some 9
  ∧ (stK10after11.frames.get? 9).map Frame.frameIndex = some 11
  ∧ (stK10after11.frames.get? 8).map Frame.frameIndex = some 10 := by decide

/-- Claim C3 (evaluation at the failing input): frames f1, f2 accepted
while disconnected and within the memory window are delivered as f2, f1
after reconnect, because the disconnected write loop re-enqueues the
pulled frame at the back of the FIFO channel, rotating the queue. -/
theorem C3_memory_window_reorders :
    (runWriter initWriter orderingTrace).delivered = [wFrame 2, wFrame 1]
  ∧ ([wFrame 2, wFrame 1] : List Frame) ≠ [wFrame 1, wFrame 2] := by decide

/-- Claim C4 (evaluation at the failing input): frame 101 is spilled to
the disk buffer during a disconnection that exceeds the threshold; after
reconnection, with no second connection failure, the restarted write loop
transmits the freshly accepted frame 102 before the drain task sends the
spilled frame 101 - the drain runs concurrently with live forwarding. -/
theorem C4_spilled_frames_race_live_traffic :
    (runWriter initWriter spillTrace).disk = [wFrame 101]
  ∧ (runWriter initWriter spillTrace).usingDisk = true
  ∧ (runWriter initWriter spillTrace).delivered = [wFrame 102, wFrame 101] := by decide

/-- Claim C5 counterexample: with hub maximum 60, a framerate command
requesting 100 leaves the session rate at 30 instead of clamping it to
the maximum 60 as claimed. -/
theorem C5_counterexample :
    (handleControl 60 (ControlCmd.framerate 100) freshSub).frameRate = 30
  ∧ (30 : Int) ≠ 60 := by decide

/-- Claim C5 (amended): a framerate command applies the requested rate
only when it is positive and at most the hub maximum, and otherwise
leaves the session rate unchanged (a request above the maximum is
ignored, not clamped); only the initial rate from the connection query
parameter is clamped server-side to the configured maximum. -/
theorem C5_framerate_amended (maxR r : Int) (sub : Subscriber) :
    (maxR < r → (handleControl maxR (ControlCmd.framerate r) sub).frameRate = sub.frameRate)
  ∧ (0 < r → r ≤ maxR → (handleControl maxR (ControlCmd.framerate r) sub).frameRate = r)
  ∧ (∀ fps : Int, 0 < fps → maxR < fps → initialFrameRate maxR (some fps) = maxR) := by
  refine ⟨?_, ?_, ?_⟩
  · intro h
    have hcond : ¬ (0 < r ∧ r ≤ maxR) := by rintro ⟨-, h2⟩; omega
    simp [handleControl, hcond]
  · intro h0 hle
    simp [handleControl, h0, hle]
  · intro fps h0 hlt
    simp only [initialFrameRate, if_pos h0, if_pos hlt]

/-- Witness for C5: concrete instances of the amended behavior. -/
theorem C5_framerate_amended_witness :
    ((handleControl 60 (ControlCmd.framerate 100) freshSub).frameRate = freshSub.frameRate)
  ∧ ((handleControl 60 (ControlCmd.framerate 45) freshSub).frameRate = 45)
  ∧ (initialFrameRate 60 (some 100) = 60) :=
  ⟨(C5_framerate_amended 60 100 freshSub).1 (by decide),
   (C5_framerate_amended 60 45 freshSub).2.1 (by decide) (by decide),
   (C5_framerate_amended 60 100 freshSub).2.2 100 (by decide) (by decide)⟩

/-- Claim C6 (evaluation at the failing input): subscribe only registers
the session - every send queue, including the new subscriber's, is left
exactly as it was, so no message of type subscribed (documented in the
repo's own docs/REALTIME_STREAMING.md) is ever sent on registration. -/
theorem C6_subscribe_sends_nothing :
    (∀ (st : StreamState) (sub : Subscriber),
        (subscribe st sub).subscribers.map Subscriber.sendQueue
          = st.subscribers.map Subscriber.sendQueue ++ [sub.sendQueue])
  ∧ (subscribe { stream := newMatchStream, subscribers := [] } freshSub).subscribers.map
      Subscriber.sendQueue = [[]] := by
  constructor
  · intro st sub
    simp [subscribe]
  · decide

/-- Claim C7: along every trace of the writer system the reconnect delay
stays between the initial value (1 s) and the configured maximum (30 s);
a failed attempt sets it to min(delay * multiplier, max) and a successful
reconnection resets it to the initial value. -/
theorem C7_backoff_bounds :
    (∀ evs : List WriterEv,
        initialReconnectDelay ≤ (runWriter initWriter evs).delay
      ∧ (runWriter initWriter evs).delay ≤ maxReconnectDelay)
  ∧ (∀ s : WriterState, s.connected = false → s.stopped = false →
        (wstep WriterEv.reconnOk s).delay = initialReconnectDelay
      ∧ (wstep WriterEv.reconnFail s).delay
          = min (s.delay * reconnectBackoffMult) maxReconnectDelay) := by
  constructor
  · intro evs
    exact runWriter_delay_bounds evs initWriter (le_refl _) (by decide)
  · intro s hc hs
    constructor
    · simp [wstep, hc, hs]
    · simp [wstep, hc, hs]

/-- Witness for C7: the backoff facts at a concrete disconnected state. -/
theorem C7_backoff_bounds_witness :
    (wstep WriterEv.reconnOk discState).delay = initialReconnectDelay
  ∧ (wstep WriterEv.reconnFail discState).delay
      = min (discState.delay * reconnectBackoffMult) maxReconnectDelay :=
  C7_backoff_bounds.2 discState rfl rfl

/-- Claim C8: after broadcasting any n frames into a fresh stream the
buffer holds min(10000, n) frames; and for any capacity k at least 1,
broadcasting more than k distinct-index frames makes the very first
frame's index unreachable via seek (its map entry was deleted when that
frame was evicted). -/
theorem C8_ring_bound_and_eviction :
    (∀ fs : List Frame,
        (runBroadcasts newMatchStream fs).frames.length = min 10000 fs.length)
  ∧ (∀ (k : Nat) (f₁ : Frame) (rest : List Frame),
        1 ≤ k → k < (f₁ :: rest).length →
        ((f₁ :: rest).map Frame.frameIndex).Nodup →
        seekLookup (runBroadcasts (streamK k) (f₁ :: rest)) f₁.frameIndex = none) := by
  constructor
  · intro fs
    have h := runBroadcasts_length fs newMatchStream (by decide) (by decide)
    simpa [newMatchStream] using h
  · intro k f₁ rest hk hlen hnd
    exact seekLookup_of_absent _ _ (runBroadcasts_oldest_evicted k f₁ rest hk hlen hnd)

/-- Witness for C8: capacity 2, frames 1,2,3 - seeking the first frame's
index delivers nothing. -/
theorem C8_ring_bound_and_eviction_witness :
    seekLookup (runBroadcasts (streamK 2) [wFrame 1, wFrame 2, wFrame 3])
      (wFrame 1).frameIndex = none :=
  C8_ring_bound_and_eviction.2 2 (wFrame 1) [wFrame 2, wFrame 3]
    (by decide) (by decide) (by decide)

/-- Claim C9 counterexample: a paused subscriber that issues a seek for a
buffered frame gets a frame message placed on its outbound queue by the
hub's seek handler, so it is not true that no hub operation ever places a
frame message on a paused subscriber's queue. -/
theorem C9_counterexample :
    pausedSub.paused = true
  ∧ (seekDeliver (broadcastStore (streamK 10) (wFrame 5)) 5 pausedSub).sendQueue
      = [StreamMsg.frame (wFrame 5)] := by decide

/-- Claim C9 (amended): while paused, BroadcastFrame places nothing on
the subscriber's queue; play merely clears the paused flag and enqueues
nothing, so frames broadcast during the pause are never replayed, and
frames broadcast after play are enqueued again (queue permitting); a seek
request, however, delivers its frame even while paused. -/
theorem C9_pause_resume_amended :
    (∀ (f : Frame) (sub : Subscriber), sub.paused = true → broadcastToSub f sub = sub)
  ∧ (∀ (maxR : Int) (sub : Subscriber),
        handleControl maxR ControlCmd.play sub = { sub with paused := false })
  ∧ (∀ (f : Frame) (sub : Subscriber), sub.paused = false →
        sub.sendQueue.length < sendCap →
        broadcastToSub f sub
          = { sub with sendQueue := sub.sendQueue ++ [StreamMsg.frame f] }) := by
  refine ⟨?_, ?_, ?_⟩
  · intro f sub h
    simp [broadcastToSub, h]
  · intro maxR sub
    rfl
  · intro f sub h hq
    simp [broadcastToSub, pushToSub, h, hq]

/-- Witness for C9: the amended facts at concrete subscribers. -/
theorem C9_pause_resume_amended_witness :
    broadcastToSub (wFrame 7) pausedSub = pausedSub
  ∧ broadcastToSub (wFrame 7) freshSub
      = { freshSub with sendQueue := [StreamMsg.frame (wFrame 7)] } :=
  ⟨C9_pause_resume_amended.1 (wFrame 7) pausedSub rfl,
   C9_pause_resume_amended.2.2 (wFrame 7) freshSub rfl (by decide)⟩

/-- Claim C10: a seek request with frame 0 is always a silent no-op - the
handler only looks up strictly positive indices - even on a stream whose
index map does contain an entry for frame index 0. -/
theorem C10_seek_zero_noop (s : MatchStream) (sub : Subscriber) :
    seekLookup s 0 = none
  ∧ seekDeliver s 0 sub = sub
  ∧ mapLookup 0 (broadcastStore (streamK 10) { frameIndex := 0, payload := 7 }).frameIndex
      = some 0
  ∧ seekDeliver (broadcastStore (streamK 10) { frameIndex := 0, payload := 7 }) 0 sub = sub := by
  have h : ∀ s' : MatchStream, seekLookup s' 0 = none := by
    intro s'
    simp [seekLookup]
  refine ⟨h s, ?_, by decide, ?_⟩
  · simp [seekDeliver, h s]
  · simp [seekDeliver, h]

end Nevr
